import Mathlib

set_option linter.unusedSectionVars false

/-!
Verification of the Roland S-1 ambient audio engine core
(`src/audio_engine.py`, with `src/audio_crossfade.py` and
`src/pre_render_crossfade.py` as secondary sources).

Shallow embedding conventions:
* Audio samples are idealised as elements of a linear ordered field `K`
  (instantiated at `ℚ` for concrete evaluation and at `ℝ` for the
  crossfader gain curve, which uses the real power `x ** 1.5`).
  Stereo numpy arrays of shape `(n, 2)` are modelled as `List K` of their
  `n` frames: every operation the engine performs on them (scalar
  multiplication, elementwise addition, fades, clipping, slicing,
  `vstack`) acts identically and independently on both channels, so a
  single-channel list is a faithful per-channel model; the only
  shape-sensitive behaviour, numpy broadcasting of the row axis, is
  modelled explicitly by `npMul` / `npAdd` / `npAccumAdd` below.
* Operations that can raise a Python/numpy exception (shape mismatch on
  broadcasting, `ZeroDivisionError`, `np.vstack([])`) return `Option`,
  with `none` for the exceptional outcome.
* The engine's file-name / crossfade-ms bookkeeping fields
  (`current_ambient_file`, `ambient_crossfade_ms`, ...) carry no audio
  semantics and are omitted from the state.
* The pedalboard `Delay.process` / `Reverb.process` library calls are
  external to the repository; the callback embedding takes them as
  opaque function parameters `d r : List K → List K`.
-/

section AudioEngineDefs

variable {K : Type} [LinearOrderedField K] [DecidableEq K]

/-- `max(0.0, min(1.0, x))` — the clamping pattern used by every
parameter setter (`set_crossfader`, `set_delay_amount`,
`set_reverb_amount`, `set_volumes`). -/
def clamp01 (x : K) : K := max 0 (min 1 x)

/-- `np.linspace(a, b, n)`: `n` evenly spaced values from `a` to `b`
inclusive; `np.linspace(a, b, 1) = [a]`. -/
def linspace (a b : K) (n : ℕ) : List K :=
  if n = 1 then [a]
  else (List.range n).map (fun (i : ℕ) => a + (b - a) * (i : K) / ((n - 1 : ℕ) : K))

/-- `int(np.ceil(target_samples / loop_length))` from
`AudioEngine._pre_render_buffer` (line 361), idealising the float
division as exact rational division.  The same formula computes
`repeats` in the extend branch (line 416). -/
def loopsNeeded (targetSamples loopLength : ℕ) : ℕ :=
  ⌈(targetSamples : ℚ) / (loopLength : ℚ)⌉₊

/-- Elementwise numpy multiplication of an audio segment by a fade
column (the engine multiplies an `(n, 2)` segment by an `(m, 1)`
column): defined when the row counts agree or one of them is `1`
(numpy broadcasting); `none` models the `ValueError` raised otherwise. -/
def npMul (xs ws : List K) : Option (List K) :=
  if xs.length = ws.length then some (List.zipWith (fun a b => a * b) xs ws)
  else if xs.length = 1 then some (ws.map (fun w => xs.headD 0 * w))
  else if ws.length = 1 then some (xs.map (fun x => x * ws.headD 0))
  else none

/-- Elementwise numpy addition with the same broadcasting rule as
`npMul`. -/
def npAdd (xs ys : List K) : Option (List K) :=
  if xs.length = ys.length then some (List.zipWith (fun a b => a + b) xs ys)
  else if xs.length = 1 then some (ys.map (fun y => xs.headD 0 + y))
  else if ys.length = 1 then some (xs.map (fun x => x + ys.headD 0))
  else none

/-- In-place numpy accumulation `output += chunk` (`audio_callback`
lines 223/233): the right-hand side must broadcast to the shape of
`output`, i.e. have the same number of rows or a single row;
otherwise numpy raises `ValueError` (`none`). -/
def npAccumAdd (output chunk : List K) : Option (List K) :=
  if chunk.length = output.length then
    some (List.zipWith (fun o c => o + c) output chunk)
  else if chunk.length = 1 then
    some (output.map (fun o => o + chunk.headD 0))
  else none

/-- `np.clip(x, -1.0, 1.0)` applied elementwise
(`audio_callback` line 240). -/
def npClip (output : List K) : List K :=
  output.map (fun x => max (-1) (min 1 x))

/-- State of `pedalboard.Delay` as the engine drives it:
`delay_seconds`, `feedback`, `mix`. -/
structure DelayParams (K : Type) where
  delaySeconds : K
  feedback : K
  mix : K
deriving DecidableEq

/-- State of `pedalboard.Reverb` as the engine drives it:
`room_size` and `damping` are never changed after construction;
`wet_level` / `dry_level` are driven by `_update_reverb_params`. -/
structure ReverbParams (K : Type) where
  roomSize : K
  damping : K
  wetLevel : K
  dryLevel : K
deriving DecidableEq

/-- The mutable state of `AudioEngine` that the verified claims touch:
the 4-buffer system (current/next buffer and playback position per
track), the two volumes, the crossfader, the effect amounts and the
pedalboard parameter blocks. -/
structure EngineState (K : Type) where
  currentAmbientBuffer : Option (List K)
  currentRhythmBuffer : Option (List K)
  currentAmbientPos : ℕ
  currentRhythmPos : ℕ
  nextAmbientBuffer : Option (List K)
  nextRhythmBuffer : Option (List K)
  nextAmbientPos : ℕ
  nextRhythmPos : ℕ
  ambientVolume : K
  rhythmVolume : K
  crossfader : K
  delayAmount : K
  reverbAmount : K
  delay : DelayParams K
  reverb : ReverbParams K
deriving DecidableEq

/-- `AudioEngine._switch_to_next_ambient` (lines 116–131): copy the
pre-loaded next buffer and its stored position into the current slot
and clear the pending buffer; a no-op when nothing is pending. -/
def switchToNextAmbient (s : EngineState K) : EngineState K :=
  match s.nextAmbientBuffer with
  | none => s
  | some b =>
    { s with
      currentAmbientBuffer := some b
      currentAmbientPos := s.nextAmbientPos
      nextAmbientBuffer := none }

/-- `AudioEngine._switch_to_next_rhythm` (lines 133–148). -/
def switchToNextRhythm (s : EngineState K) : EngineState K :=
  match s.nextRhythmBuffer with
  | none => s
  | some b =>
    { s with
      currentRhythmBuffer := some b
      currentRhythmPos := s.nextRhythmPos
      nextRhythmBuffer := none }

/-- `AudioEngine._check_buffer_switching` (lines 106–114): promote a
pending next buffer for each track iff that track's volume is exactly
`0` and a next buffer is pending. -/
def checkBufferSwitching (s : EngineState K) : EngineState K :=
  let s1 :=
    if s.ambientVolume = 0 ∧ s.nextAmbientBuffer.isSome then
      switchToNextAmbient s
    else s
  if s1.rhythmVolume = 0 ∧ s1.nextRhythmBuffer.isSome then
    switchToNextRhythm s1
  else s1

/-- The preload path of `AudioEngine._load_audio_to_buffer` for the
ambient track (lines 333–336, via `preload_next_ambient`): store the
rendered buffer in the next slot and set its position to `0`. -/
def preloadNextAmbient (b : List K) (s : EngineState K) : EngineState K :=
  { s with nextAmbientBuffer := some b, nextAmbientPos := 0 }

/-- `AudioEngine._update_delay_params` (lines 155–177): Roland S-1
style preset selection driven by `delay_amount`. -/
def updateDelayParams (delayAmount : K) (d : DelayParams K) : DelayParams K :=
  if delayAmount = 0 then { d with mix := 0 }
  else
    let d' :=
      if delayAmount ≤ 0.3 then { d with delaySeconds := 0.2, feedback := 0.3 }
      else if delayAmount ≤ 0.7 then { d with delaySeconds := 0.4, feedback := 0.5 }
      else { d with delaySeconds := 0.8, feedback := 0.7 }
    { d' with mix := delayAmount }

/-- `AudioEngine._update_reverb_params` (lines 184–187). -/
def updateReverbParams (reverbAmount : K) (r : ReverbParams K) : ReverbParams K :=
  { r with wetLevel := reverbAmount, dryLevel := 1 - reverbAmount }

/-- `AudioEngine.set_delay_amount` (lines 150–153). -/
def setDelayAmount (amount : K) (s : EngineState K) : EngineState K :=
  let s' := { s with delayAmount := clamp01 amount }
  { s' with delay := updateDelayParams s'.delayAmount s'.delay }

/-- `AudioEngine.set_reverb_amount` (lines 179–182). -/
def setReverbAmount (amount : K) (s : EngineState K) : EngineState K :=
  let s' := { s with reverbAmount := clamp01 amount }
  { s' with reverb := updateReverbParams s'.reverbAmount s'.reverb }

/-- `AudioEngine._apply_effects` (lines 189–203) with the pedalboard
processors abstracted as `d` and `r`: apply the delay when
`delay_amount > 0`, then the reverb when `reverb_amount > 0`. -/
def applyEffects (d r : List K → List K) (s : EngineState K)
    (audio : List K) : List K :=
  let a1 := if 0 < s.delayAmount then d audio else audio
  if 0 < s.reverbAmount then r a1 else a1

/-- `AudioEngine._get_audio_chunk` (lines 245–259): slice `frames`
frames starting at `position`, wrapping once to index `0`
(`np.vstack((buffer[position:], buffer[:frames - remaining]))`). -/
def getAudioChunk (buffer : List K) (position frames : ℕ) : List K :=
  if position + frames ≤ buffer.length then
    (buffer.drop position).take frames
  else
    buffer.drop position ++ buffer.take (frames - (buffer.length - position))

/-- One track's contribution inside `AudioEngine.audio_callback`
(lines 216–223 for ambient, 226–233 for rhythm): if a current buffer
exists and the track volume is positive, read a chunk, advance the
position modulo the buffer length and accumulate `chunk * volume`
into `output`; otherwise leave `output` and the position untouched. -/
def mixTrack (buffer? : Option (List K)) (position : ℕ) (volume : K)
    (frames : ℕ) (output : List K) : Option (List K × ℕ) :=
  match buffer? with
  | none => some (output, position)
  | some buffer =>
    if 0 < volume then
      match npAccumAdd output
          ((getAudioChunk buffer position frames).map (fun x => x * volume)) with
      | none => none
      | some out => some (out, (position + frames) % buffer.length)
    else some (output, position)

/-- `AudioEngine.audio_callback` (lines 207–243): zero-initialise the
output, mix the ambient then the rhythm track, apply effects when
either amount is positive, and clip to `[-1, 1]`.  Returns the output
block together with the updated engine state; `none` models a numpy
shape error escaping the callback. -/
def audioCallback (d r : List K → List K) (frames : ℕ)
    (s : EngineState K) : Option (List K × EngineState K) :=
  match mixTrack s.currentAmbientBuffer s.currentAmbientPos s.ambientVolume
      frames (List.replicate frames (0 : K)) with
  | none => none
  | some (o1, ambientPos) =>
    match mixTrack s.currentRhythmBuffer s.currentRhythmPos s.rhythmVolume frames o1 with
    | none => none
    | some (o2, rhythmPos) =>
      let o3 :=
        if 0 < s.delayAmount ∨ 0 < s.reverbAmount then applyEffects d r s o2 else o2
      some (npClip o3,
        { s with currentAmbientPos := ambientPos, currentRhythmPos := rhythmPos })

/-- The loop of `AudioEngine._pre_render_buffer` (lines 374–406),
modelled as a recursion on the number of completed iterations; the
parts list is kept in reverse order (`buffer_parts[-1]` is the head).
Iteration `0` appends the full source; iteration `i ≥ 1` with a
positive crossfade fades the last `C` frames of the previous part
against the first `C` frames of the source, replaces the tail of the
previous part by the crossfaded section and appends
`audio_data[crossfade_samples:]`. -/
def buildLoop (data : List K) (C : ℕ) (fadeIn fadeOut : List K) :
    ℕ → Option (List (List K))
  | 0 => some []
  | n + 1 =>
    match buildLoop data C fadeIn fadeOut n with
    | none => none
    | some parts =>
      if n = 0 then some (data :: parts)
      else if 0 < C then
        match parts with
        | [] => none
        | prev :: rest =>
          match npMul (prev.drop (prev.length - C)) fadeOut with
          | none => none
          | some prevEndFaded =>
            match npMul (data.take C) fadeIn with
            | none => none
            | some currentStartFaded =>
              match npAdd prevEndFaded currentStartFaded with
              | none => none
              | some crossfaded =>
                some (data.drop C ::
                  (prev.take (prev.length - C) ++ crossfaded) :: rest)
      else some (data :: parts)

/-- `AudioEngine._pre_render_buffer` (lines 350–420) with the
crossfade already converted to samples and the target buffer length
(`target_buffer_seconds * sample_rate`) passed in: compute
`loops_needed`, build the fade ramps, run the loop, flatten the parts
and trim — or tile and trim — to exactly `targetSamples` frames.
`none` models the exceptions the Python code can raise
(`ZeroDivisionError` on an empty source, numpy shape errors inside
the loop, `np.vstack([])` when no part was built). -/
def preRenderBuffer (data : List K) (C targetSamples : ℕ) : Option (List K) :=
  if data.length = 0 then none
  else
    match buildLoop data C (if 0 < C then linspace 0 1 C else [])
        (if 0 < C then linspace 1 0 C else [])
        (loopsNeeded targetSamples data.length) with
    | none => none
    | some parts =>
      let full := parts.reverse.flatten
      if full.length = 0 then none
      else if targetSamples < full.length then some (full.take targetSamples)
      else if full.length < targetSamples then
        some ((List.replicate (loopsNeeded targetSamples full.length) full).flatten.take
          targetSamples)
      else some full

end AudioEngineDefs

section RealEngine

/-- `AudioEngine._update_volumes_from_crossfader` (lines 93–104):
derive both volumes from the crossfader with the `x ** 1.5` curve,
then run the buffer-switch check.  Stated over `ℝ` because of the
real power. -/
noncomputable def updateVolumesFromCrossfader (s : EngineState ℝ) : EngineState ℝ :=
  checkBufferSwitching
    { s with
      ambientVolume := (1 - s.crossfader) ^ (1.5 : ℝ)
      rhythmVolume := s.crossfader ^ (1.5 : ℝ) }

/-- `AudioEngine.set_crossfader` (lines 88–91). -/
noncomputable def setCrossfader (amount : ℝ) (s : EngineState ℝ) : EngineState ℝ :=
  updateVolumesFromCrossfader { s with crossfader := clamp01 amount }

end RealEngine

section CrossfadeEngine

variable {K : Type} [LinearOrderedField K]

/-- The volume state of `CrossfadeAudioEngine`
(`src/audio_crossfade.py`), the engine that owns `set_volumes`. -/
structure CrossfadeEngineState (K : Type) where
  ambientVolume : K
  rhythmVolume : K

/-- `CrossfadeAudioEngine.set_volumes` (`src/audio_crossfade.py`
lines 163–165). -/
def setVolumes (ambientVol rhythmVol : K) (s : CrossfadeEngineState K) :
    CrossfadeEngineState K :=
  { s with ambientVolume := clamp01 ambientVol, rhythmVolume := clamp01 rhythmVol }

end CrossfadeEngine

/-- The state `AudioEngine.__init__` (lines 18–79) establishes:
no buffers, positions `0`, `ambient_volume = 1`, `rhythm_volume = 0`,
crossfader and effect amounts `0`, `Delay(0.2, 0.3, 0.0)` and
`Reverb(0.7, 0.5, 0.0, 1.0)`. -/
def initEngineState {K : Type} [LinearOrderedField K] : EngineState K :=
  { currentAmbientBuffer := none
    currentRhythmBuffer := none
    currentAmbientPos := 0
    currentRhythmPos := 0
    nextAmbientBuffer := none
    nextRhythmBuffer := none
    nextAmbientPos := 0
    nextRhythmPos := 0
    ambientVolume := 1
    rhythmVolume := 0
    crossfader := 0
    delayAmount := 0
    reverbAmount := 0
    delay := { delaySeconds := 0.2, feedback := 0.3, mix := 0 }
    reverb := { roomSize := 0.7, damping := 0.5, wetLevel := 0, dryLevel := 1 } }

section HelperLemmas

variable {K : Type} [LinearOrderedField K] [DecidableEq K]

lemma clamp01_nonneg (x : K) : 0 ≤ clamp01 x := le_max_left _ _

lemma clamp01_le_one (x : K) : clamp01 x ≤ 1 :=
  max_le zero_le_one (min_le_left _ _)

lemma clamp01_of_mem (x : K) (h0 : 0 ≤ x) (h1 : x ≤ 1) : clamp01 x = x := by
  rw [clamp01, min_eq_right h1, max_eq_right h0]

lemma linspace_length (a b : K) (n : ℕ) : (linspace a b n).length = n := by
  rw [linspace]
  split
  · simp_all
  · simp only [List.length_map, List.length_range]

lemma linspace_getD (a b : K) (n i : ℕ) (hi : i < n) (hn : n ≠ 1) :
    (linspace a b n).getD i 0 = a + (b - a) * (i : K) / ((n - 1 : ℕ) : K) := by
  rw [linspace, if_neg hn, List.getD_eq_getElem?_getD, List.getElem?_map,
    List.getElem?_range hi, Option.map_some', Option.getD_some]

lemma loopsNeeded_eq (t n : ℕ) (h : 0 < n) : loopsNeeded t n = (t + n - 1) / n := by
  have hn : (0 : ℚ) < (n : ℚ) := by exact_mod_cast h
  refine Nat.le_antisymm ?_ ?_
  · rw [loopsNeeded, Nat.ceil_le, div_le_iff₀ hn]
    have hq : t ≤ (t + n - 1) / n * n := by
      have hdm := Nat.div_add_mod (t + n - 1) n
      have hmlt := Nat.mod_lt (t + n - 1) h
      have hc : (t + n - 1) / n * n = n * ((t + n - 1) / n) := Nat.mul_comm _ _
      omega
    exact_mod_cast hq
  · have hle : (t : ℚ) / n ≤ (loopsNeeded t n : ℚ) := by
      rw [loopsNeeded]
      exact_mod_cast Nat.le_ceil _
    have h2 : t ≤ loopsNeeded t n * n := by
      rw [div_le_iff₀ hn] at hle
      exact_mod_cast hle
    have h3 : t + n - 1 < (loopsNeeded t n + 1) * n := by
      rw [add_mul, one_mul]; omega
    have h4 : (t + n - 1) / n < loopsNeeded t n + 1 :=
      (Nat.div_lt_iff_lt_mul h).mpr h3
    omega

lemma getAudioChunk_length_eq (buffer : List K) (p frames : ℕ)
    (hp : p < buffer.length) (hf : frames ≤ buffer.length) :
    (getAudioChunk buffer p frames).length = frames := by
  rw [getAudioChunk]; split <;> simp <;> omega

lemma switchToNextAmbient_of_none (s : EngineState K)
    (h : s.nextAmbientBuffer = none) : switchToNextAmbient s = s := by
  rw [switchToNextAmbient, h]

lemma switchToNextAmbient_of_some (s : EngineState K) (b : List K)
    (h : s.nextAmbientBuffer = some b) :
    switchToNextAmbient s =
      { s with
        currentAmbientBuffer := some b
        currentAmbientPos := s.nextAmbientPos
        nextAmbientBuffer := none } := by
  rw [switchToNextAmbient, h]

lemma switchToNextRhythm_of_none (s : EngineState K)
    (h : s.nextRhythmBuffer = none) : switchToNextRhythm s = s := by
  rw [switchToNextRhythm, h]

lemma switchToNextRhythm_of_some (s : EngineState K) (b : List K)
    (h : s.nextRhythmBuffer = some b) :
    switchToNextRhythm s =
      { s with
        currentRhythmBuffer := some b
        currentRhythmPos := s.nextRhythmPos
        nextRhythmBuffer := none } := by
  rw [switchToNextRhythm, h]

/-- The two switch operations only move buffers and cursors of their
own track; everything else is untouched. -/
@[simp] lemma switchToNextAmbient_ambientVolume (s : EngineState K) :
    (switchToNextAmbient s).ambientVolume = s.ambientVolume := by
  rw [switchToNextAmbient]; rcases s.nextAmbientBuffer with _ | b <;> rfl

@[simp] lemma switchToNextAmbient_rhythmVolume (s : EngineState K) :
    (switchToNextAmbient s).rhythmVolume = s.rhythmVolume := by
  rw [switchToNextAmbient]; rcases s.nextAmbientBuffer with _ | b <;> rfl

@[simp] lemma switchToNextAmbient_crossfader (s : EngineState K) :
    (switchToNextAmbient s).crossfader = s.crossfader := by
  rw [switchToNextAmbient]; rcases s.nextAmbientBuffer with _ | b <;> rfl

@[simp] lemma switchToNextAmbient_delayAmount (s : EngineState K) :
    (switchToNextAmbient s).delayAmount = s.delayAmount := by
  rw [switchToNextAmbient]; rcases s.nextAmbientBuffer with _ | b <;> rfl

@[simp] lemma switchToNextAmbient_reverbAmount (s : EngineState K) :
    (switchToNextAmbient s).reverbAmount = s.reverbAmount := by
  rw [switchToNextAmbient]; rcases s.nextAmbientBuffer with _ | b <;> rfl

@[simp] lemma switchToNextAmbient_delay (s : EngineState K) :
    (switchToNextAmbient s).delay = s.delay := by
  rw [switchToNextAmbient]; rcases s.nextAmbientBuffer with _ | b <;> rfl

@[simp] lemma switchToNextAmbient_reverb (s : EngineState K) :
    (switchToNextAmbient s).reverb = s.reverb := by
  rw [switchToNextAmbient]; rcases s.nextAmbientBuffer with _ | b <;> rfl

@[simp] lemma switchToNextAmbient_currentRhythmBuffer (s : EngineState K) :
    (switchToNextAmbient s).currentRhythmBuffer = s.currentRhythmBuffer := by
  rw [switchToNextAmbient]; rcases s.nextAmbientBuffer with _ | b <;> rfl

@[simp] lemma switchToNextAmbient_currentRhythmPos (s : EngineState K) :
    (switchToNextAmbient s).currentRhythmPos = s.currentRhythmPos := by
  rw [switchToNextAmbient]; rcases s.nextAmbientBuffer with _ | b <;> rfl

@[simp] lemma switchToNextAmbient_nextRhythmBuffer (s : EngineState K) :
    (switchToNextAmbient s).nextRhythmBuffer = s.nextRhythmBuffer := by
  rw [switchToNextAmbient]; rcases s.nextAmbientBuffer with _ | b <;> rfl

@[simp] lemma switchToNextAmbient_nextRhythmPos (s : EngineState K) :
    (switchToNextAmbient s).nextRhythmPos = s.nextRhythmPos := by
  rw [switchToNextAmbient]; rcases s.nextAmbientBuffer with _ | b <;> rfl

@[simp] lemma switchToNextAmbient_nextAmbientPos (s : EngineState K) :
    (switchToNextAmbient s).nextAmbientPos = s.nextAmbientPos := by
  rw [switchToNextAmbient]; rcases s.nextAmbientBuffer with _ | b <;> rfl

@[simp] lemma switchToNextRhythm_ambientVolume (s : EngineState K) :
    (switchToNextRhythm s).ambientVolume = s.ambientVolume := by
  rw [switchToNextRhythm]; rcases s.nextRhythmBuffer with _ | b <;> rfl

@[simp] lemma switchToNextRhythm_rhythmVolume (s : EngineState K) :
    (switchToNextRhythm s).rhythmVolume = s.rhythmVolume := by
  rw [switchToNextRhythm]; rcases s.nextRhythmBuffer with _ | b <;> rfl

@[simp] lemma switchToNextRhythm_crossfader (s : EngineState K) :
    (switchToNextRhythm s).crossfader = s.crossfader := by
  rw [switchToNextRhythm]; rcases s.nextRhythmBuffer with _ | b <;> rfl

@[simp] lemma switchToNextRhythm_delayAmount (s : EngineState K) :
    (switchToNextRhythm s).delayAmount = s.delayAmount := by
  rw [switchToNextRhythm]; rcases s.nextRhythmBuffer with _ | b <;> rfl

@[simp] lemma switchToNextRhythm_reverbAmount (s : EngineState K) :
    (switchToNextRhythm s).reverbAmount = s.reverbAmount := by
  rw [switchToNextRhythm]; rcases s.nextRhythmBuffer with _ | b <;> rfl

@[simp] lemma switchToNextRhythm_delay (s : EngineState K) :
    (switchToNextRhythm s).delay = s.delay := by
  rw [switchToNextRhythm]; rcases s.nextRhythmBuffer with _ | b <;> rfl

@[simp] lemma switchToNextRhythm_reverb (s : EngineState K) :
    (switchToNextRhythm s).reverb = s.reverb := by
  rw [switchToNextRhythm]; rcases s.nextRhythmBuffer with _ | b <;> rfl

@[simp] lemma switchToNextRhythm_currentAmbientBuffer (s : EngineState K) :
    (switchToNextRhythm s).currentAmbientBuffer = s.currentAmbientBuffer := by
  rw [switchToNextRhythm]; rcases s.nextRhythmBuffer with _ | b <;> rfl

@[simp] lemma switchToNextRhythm_currentAmbientPos (s : EngineState K) :
    (switchToNextRhythm s).currentAmbientPos = s.currentAmbientPos := by
  rw [switchToNextRhythm]; rcases s.nextRhythmBuffer with _ | b <;> rfl

@[simp] lemma switchToNextRhythm_nextAmbientBuffer (s : EngineState K) :
    (switchToNextRhythm s).nextAmbientBuffer = s.nextAmbientBuffer := by
  rw [switchToNextRhythm]; rcases s.nextRhythmBuffer with _ | b <;> rfl

@[simp] lemma switchToNextRhythm_nextAmbientPos (s : EngineState K) :
    (switchToNextRhythm s).nextAmbientPos = s.nextAmbientPos := by
  rw [switchToNextRhythm]; rcases s.nextRhythmBuffer with _ | b <;> rfl

@[simp] lemma switchToNextRhythm_nextRhythmPos (s : EngineState K) :
    (switchToNextRhythm s).nextRhythmPos = s.nextRhythmPos := by
  rw [switchToNextRhythm]; rcases s.nextRhythmBuffer with _ | b <;> rfl

/-- The buffer-switch check only moves buffers and cursors; every
scalar field (volumes, crossfader, effect state) is untouched. -/
lemma checkBufferSwitching_scalars (s : EngineState K) :
    (checkBufferSwitching s).ambientVolume = s.ambientVolume ∧
    (checkBufferSwitching s).rhythmVolume = s.rhythmVolume ∧
    (checkBufferSwitching s).crossfader = s.crossfader ∧
    (checkBufferSwitching s).delayAmount = s.delayAmount ∧
    (checkBufferSwitching s).reverbAmount = s.reverbAmount ∧
    (checkBufferSwitching s).delay = s.delay ∧
    (checkBufferSwitching s).reverb = s.reverb := by
  rw [checkBufferSwitching]
  split_ifs <;> simp

end HelperLemmas

/-- Smoke checks for the numpy-style primitives. -/
example : linspace (0 : ℚ) 1 3 = [0, 1/2, 1] := by
  simp [linspace, List.range_succ]
example : linspace (1 : ℚ) 0 1 = [1] := by simp [linspace]
example : loopsNeeded 220500 88200 = 3 := by
  rw [loopsNeeded, Nat.ceil_eq_iff (by norm_num)]; norm_num
example : npMul ([1, 2] : List ℚ) [3, 4] = some [3, 8] := by
  norm_num [npMul]
example : npMul ([1, 2] : List ℚ) [3, 4, 5] = none := by
  norm_num [npMul]
example : npMul ([2] : List ℚ) [3, 4, 5] = some [6, 8, 10] := by
  norm_num [npMul]

/-- **C6** — For every crossfade window of `C > 0` samples built by the
renderer (`fade_in = np.linspace(0, 1, C)`,
`fade_out = np.linspace(1, 0, C)`, `_pre_render_buffer` lines
366–371), at every position `i` in the window the fade-out weight plus
the fade-in weight equals exactly `1` — the linear crossfade conserves
amplitude sample-by-sample. -/
theorem crossfade_fade_weights_sum_to_one {K : Type} [LinearOrderedField K]
    (C i : ℕ) (hC : 0 < C) (hi : i < C) :
    (linspace (1 : K) 0 C).getD i 0 + (linspace (0 : K) 1 C).getD i 0 = 1 := by
  rcases eq_or_ne C 1 with h1 | h1
  · subst h1
    interval_cases i
    simp [linspace]
  · rw [linspace_getD _ _ _ _ hi h1, linspace_getD _ _ _ _ hi h1]
    ring

/-- Witness for C6 at `C = 4`, `i = 2` over `ℚ`. -/
theorem crossfade_fade_weights_sum_to_one_witness :
    (linspace (1 : ℚ) 0 4).getD 2 0 + (linspace (0 : ℚ) 1 4).getD 2 0 = 1 :=
  crossfade_fade_weights_sum_to_one 4 2 (by decide) (by decide)

/-- **C9** — Parameter setters never fail: for every real input the
stored parameter is clamped into `[0, 1]`
(`set_crossfader`, `set_delay_amount`, `set_reverb_amount` in
`audio_engine.py`; `set_volumes` in `audio_crossfade.py`). -/
theorem setters_clamp_to_unit_interval :
    ∀ (x y : ℝ) (s : EngineState ℝ) (c : CrossfadeEngineState ℝ),
      (0 ≤ (setCrossfader x s).crossfader ∧ (setCrossfader x s).crossfader ≤ 1) ∧
      (0 ≤ (setDelayAmount x s).delayAmount ∧ (setDelayAmount x s).delayAmount ≤ 1) ∧
      (0 ≤ (setReverbAmount x s).reverbAmount ∧ (setReverbAmount x s).reverbAmount ≤ 1) ∧
      (0 ≤ (setVolumes x y c).ambientVolume ∧ (setVolumes x y c).ambientVolume ≤ 1) ∧
      (0 ≤ (setVolumes x y c).rhythmVolume ∧ (setVolumes x y c).rhythmVolume ≤ 1) := by
  intro x y s c
  have hcross : (setCrossfader x s).crossfader = clamp01 x := by
    rw [setCrossfader, updateVolumesFromCrossfader]
    exact (checkBufferSwitching_scalars _).2.2.1
  refine ⟨⟨?_, ?_⟩, ⟨?_, ?_⟩, ⟨?_, ?_⟩, ⟨?_, ?_⟩, ?_, ?_⟩ <;>
    simp only [hcross, setDelayAmount, setReverbAmount, setVolumes] <;>
    first
      | exact clamp01_nonneg _
      | exact clamp01_le_one _

/-- **C10** — For a buffer of length `L` and cursor `0 ≤ p < L`, the
chunk read (`_get_audio_chunk`) returns exactly `frames` frames
(wrapping once to index `0`) whenever `frames ≤ L`, but for any
`frames > L + (L - p)` it returns fewer than `frames` frames — so the
callback's fixed-size mix is only well-defined when every current
buffer is at least one block long. -/
theorem get_audio_chunk_length_bounds {K : Type} [LinearOrderedField K]
    (buffer : List K) (p frames bigFrames : ℕ) (hp : p < buffer.length) :
    (frames ≤ buffer.length → (getAudioChunk buffer p frames).length = frames) ∧
    (buffer.length + (buffer.length - p) < bigFrames →
      (getAudioChunk buffer p bigFrames).length < bigFrames) := by
  constructor
  · intro hf
    exact getAudioChunk_length_eq buffer p frames hp hf
  · intro hbig
    rw [getAudioChunk, if_neg (by omega)]
    simp only [List.length_append, List.length_drop, List.length_take]
    omega

/-- Witness for C10 on the concrete buffer `[1, 2, 3]` with cursor
`p = 1`: a read of `2 ≤ 3` frames yields exactly `2` frames, and a
read of `6 > 3 + (3 - 1)` frames comes up short. -/
theorem get_audio_chunk_length_bounds_witness :
    (getAudioChunk ([1, 2, 3] : List ℚ) 1 2).length = 2 ∧
    (getAudioChunk ([1, 2, 3] : List ℚ) 1 6).length < 6 := by
  obtain ⟨h1, h2⟩ :=
    get_audio_chunk_length_bounds ([1, 2, 3] : List ℚ) 1 2 6 (by decide)
  exact ⟨h1 (by decide), h2 (by decide)⟩

/-- **C1 counterexample** — The claim predicts
`loops_needed = ceil(target / (N - C)) = ceil(220500 / 66150) = 4` for
the documented example (`N = 88200`, `C = 22050`, target
`5 s * 44100 Hz = 220500` frames), but `_pre_render_buffer` divides by
the full source length `N`, giving `3`. -/
theorem loops_needed_example_ne_spec_formula :
    loopsNeeded 220500 88200 = 3 ∧
    (220500 + (88200 - 22050) - 1) / (88200 - 22050) = 4 ∧ (3 : ℕ) ≠ 4 := by
  refine ⟨?_, by decide, by decide⟩
  rw [loopsNeeded_eq 220500 88200 (by decide)]

/-- **C1 amended** — `_pre_render_buffer` computes
`loops_needed = ceil(target_samples / len(source))`, dividing by the
full source length and ignoring the crossfade overlap; for the
documented example (target `220500` frames, source `88200` frames) it
computes `3` loops, not `4`. -/
theorem loops_needed_divides_by_full_length (t n : ℕ) :
    (0 < n → loopsNeeded t n = (t + n - 1) / n) ∧
    loopsNeeded 220500 88200 = 3 := by
  refine ⟨fun h => loopsNeeded_eq t n h, ?_⟩
  rw [loopsNeeded_eq 220500 88200 (by decide)]

/-- Witness for the amended C1 at `t = 220500`, `n = 88200`. -/
theorem loops_needed_divides_by_full_length_witness :
    loopsNeeded 220500 88200 = (220500 + 88200 - 1) / 88200 ∧
    loopsNeeded 220500 88200 = 3 :=
  ⟨(loops_needed_divides_by_full_length 220500 88200).1 (by decide),
    (loops_needed_divides_by_full_length 220500 88200).2⟩

section PromotionLemmas

variable {K : Type} [LinearOrderedField K] [DecidableEq K]

lemma switchToNextAmbient_next_of_isSome (s : EngineState K)
    (h : s.nextAmbientBuffer.isSome) :
    (switchToNextAmbient s).nextAmbientBuffer = none := by
  obtain ⟨b, hb⟩ := Option.isSome_iff_exists.mp h
  rw [switchToNextAmbient_of_some s b hb]

lemma switchToNextRhythm_next_of_isSome (s : EngineState K)
    (h : s.nextRhythmBuffer.isSome) :
    (switchToNextRhythm s).nextRhythmBuffer = none := by
  obtain ⟨b, hb⟩ := Option.isSome_iff_exists.mp h
  rw [switchToNextRhythm_of_some s b hb]

/-- Once the ambient volume is exactly zero, running the buffer-switch
check leaves no pending ambient buffer behind. -/
lemma checkBufferSwitching_nextAmbient_of_zero (s : EngineState K)
    (h : s.ambientVolume = 0) :
    (checkBufferSwitching s).nextAmbientBuffer = none := by
  rw [checkBufferSwitching]
  by_cases hs : s.nextAmbientBuffer.isSome
  · simp only [if_pos (And.intro h hs)]
    split_ifs with h2
    · rw [switchToNextRhythm_nextAmbientBuffer]
      exact switchToNextAmbient_next_of_isSome s hs
    · exact switchToNextAmbient_next_of_isSome s hs
  · simp only [if_neg (fun hc => hs (And.right hc))]
    split_ifs with h2
    · rw [switchToNextRhythm_nextAmbientBuffer]
      exact Option.not_isSome_iff_eq_none.mp hs
    · exact Option.not_isSome_iff_eq_none.mp hs

/-- Once the rhythm volume is exactly zero, running the buffer-switch
check leaves no pending rhythm buffer behind. -/
lemma checkBufferSwitching_nextRhythm_of_zero (s : EngineState K)
    (h : s.rhythmVolume = 0) :
    (checkBufferSwitching s).nextRhythmBuffer = none := by
  rw [checkBufferSwitching]
  by_cases h1 : s.ambientVolume = 0 ∧ s.nextAmbientBuffer.isSome
  · simp only [if_pos h1]
    by_cases h2 : (switchToNextAmbient s).rhythmVolume = 0 ∧
        (switchToNextAmbient s).nextRhythmBuffer.isSome
    · simp only [if_pos h2]
      exact switchToNextRhythm_next_of_isSome _ (And.right h2)
    · simp only [if_neg h2]
      rcases hnr : (switchToNextAmbient s).nextRhythmBuffer with _ | b
      · rfl
      · exact absurd ⟨by rw [switchToNextAmbient_rhythmVolume]; exact h,
          by rw [hnr]; rfl⟩ h2
  · simp only [if_neg h1]
    by_cases h2 : s.rhythmVolume = 0 ∧ s.nextRhythmBuffer.isSome
    · simp only [if_pos h2]
      exact switchToNextRhythm_next_of_isSome _ (And.right h2)
    · simp only [if_neg h2]
      rcases hnr : s.nextRhythmBuffer with _ | b
      · rfl
      · exact absurd ⟨h, by rw [hnr]; rfl⟩ h2

/-- The buffer-switch check is idempotent: a second call is a no-op. -/
lemma checkBufferSwitching_idem (s : EngineState K) :
    checkBufferSwitching (checkBufferSwitching s) = checkBufferSwitching s := by
  have hav := (checkBufferSwitching_scalars s).1
  have hrv := (checkBufferSwitching_scalars s).2.1
  have hc1 : ¬((checkBufferSwitching s).ambientVolume = 0 ∧
      (checkBufferSwitching s).nextAmbientBuffer.isSome) := by
    rintro ⟨h0, hs⟩
    rw [hav] at h0
    rw [checkBufferSwitching_nextAmbient_of_zero s h0] at hs
    simp at hs
  have hc2 : ¬((checkBufferSwitching s).rhythmVolume = 0 ∧
      (checkBufferSwitching s).nextRhythmBuffer.isSome) := by
    rintro ⟨h0, hs⟩
    rw [hrv] at h0
    rw [checkBufferSwitching_nextRhythm_of_zero s h0] at hs
    simp at hs
  conv_lhs => rw [checkBufferSwitching]
  simp only [if_neg hc1, if_neg hc2]

end PromotionLemmas

/-- **C3 counterexample** — A state whose ambient gain is
`1/2000 ≤ 1e-3` with a pending next buffer: the claim's threshold
(`gain ≤ 1e-3`) demands a promotion, but `_check_buffer_switching`
(which tests `volume == 0` exactly) leaves the state completely
unchanged — the pending buffer is still pending. -/
def promotionCounterexampleState : EngineState ℚ :=
  { initEngineState with
    currentAmbientBuffer := some [2]
    currentAmbientPos := 5
    nextAmbientBuffer := some [9]
    ambientVolume := 1/2000 }

theorem promotion_skipped_below_exact_zero :
    promotionCounterexampleState.ambientVolume ≤ 1/1000 ∧
    promotionCounterexampleState.nextAmbientBuffer = some [9] ∧
    checkBufferSwitching promotionCounterexampleState = promotionCounterexampleState := by
  refine ⟨by norm_num [promotionCounterexampleState, initEngineState], rfl, ?_⟩
  have hc1 : ¬(promotionCounterexampleState.ambientVolume = 0 ∧
      promotionCounterexampleState.nextAmbientBuffer.isSome) := by
    rintro ⟨h0, _⟩
    norm_num [promotionCounterexampleState, initEngineState] at h0
  have hc2 : ¬(promotionCounterexampleState.rhythmVolume = 0 ∧
      promotionCounterexampleState.nextRhythmBuffer.isSome) := by
    rintro ⟨_, hs⟩
    simp [promotionCounterexampleState, initEngineState] at hs
  rw [checkBufferSwitching]
  simp only [if_neg hc1, if_neg hc2]

/-- **C3 amended** — Promotion of a pending next buffer happens iff the
slot's gain is **exactly `0`** (the code tests `volume == 0`, not
`volume <= 1e-3`) and a next buffer is pending; it then installs the
pending buffer with its stored cursor (set to `0` by the preload
path) and clears the pending slot.  With nonzero gain the slot is
untouched, and the check is idempotent — after a successful promotion
a second call is a no-op. -/
theorem promotion_iff_gain_exactly_zero {K : Type} [LinearOrderedField K]
    [DecidableEq K] (s : EngineState K) (b : List K) :
    (s.ambientVolume = 0 → s.nextAmbientBuffer = some b → s.nextAmbientPos = 0 →
      (checkBufferSwitching s).currentAmbientBuffer = some b ∧
      (checkBufferSwitching s).currentAmbientPos = 0 ∧
      (checkBufferSwitching s).nextAmbientBuffer = none) ∧
    (s.ambientVolume ≠ 0 →
      (checkBufferSwitching s).currentAmbientBuffer = s.currentAmbientBuffer ∧
      (checkBufferSwitching s).currentAmbientPos = s.currentAmbientPos ∧
      (checkBufferSwitching s).nextAmbientBuffer = s.nextAmbientBuffer) ∧
    checkBufferSwitching (checkBufferSwitching s) = checkBufferSwitching s ∧
    (preloadNextAmbient b s).nextAmbientPos = 0 := by
  refine ⟨?_, ?_, checkBufferSwitching_idem s, rfl⟩
  · intro h0 hb hp
    rw [checkBufferSwitching]
    simp only [if_pos (And.intro h0 (Option.isSome_iff_exists.mpr ⟨b, hb⟩))]
    rw [switchToNextAmbient_of_some s b hb]
    split_ifs with h2
    · rw [switchToNextRhythm_currentAmbientBuffer, switchToNextRhythm_currentAmbientPos,
        switchToNextRhythm_nextAmbientBuffer]
      exact ⟨rfl, hp, rfl⟩
    · exact ⟨rfl, hp, rfl⟩
  · intro hne
    rw [checkBufferSwitching]
    simp only [if_neg (fun hc => hne (And.left hc))]
    split_ifs with h2
    · rw [switchToNextRhythm_currentAmbientBuffer, switchToNextRhythm_currentAmbientPos,
        switchToNextRhythm_nextAmbientBuffer]
      exact ⟨rfl, rfl, rfl⟩
    · exact ⟨rfl, rfl, rfl⟩

/-- Witness for the amended C3: a concrete state with gain exactly `0`
and a pending `[9]` buffer is promoted (pending cleared, cursor `0`). -/
def promotionWitnessState : EngineState ℚ :=
  { initEngineState with
    ambientVolume := 0
    currentAmbientBuffer := some [2]
    currentAmbientPos := 7
    nextAmbientBuffer := some [9] }

theorem promotion_iff_gain_exactly_zero_witness :
    (checkBufferSwitching promotionWitnessState).currentAmbientBuffer = some [9] ∧
    (checkBufferSwitching promotionWitnessState).currentAmbientPos = 0 ∧
    (checkBufferSwitching promotionWitnessState).nextAmbientBuffer = none :=
  (promotion_iff_gain_exactly_zero promotionWitnessState [9]).1 rfl rfl rfl

/-- **C5** — `set_crossfader` clamps its argument and derives
`ambient_volume = (1 - position) ** 1.5` and
`rhythm_volume = position ** 1.5`; in particular position `0` gives
gains `(1, 0)`, position `1` gives `(0, 1)` and position `1/2` gives
`((1/2) ** 1.5, (1/2) ** 1.5)`. -/
theorem crossfader_gain_curve (s : EngineState ℝ) (p : ℝ)
    (h0 : 0 ≤ p) (h1 : p ≤ 1) :
    ((setCrossfader p s).ambientVolume = (1 - p) ^ (1.5 : ℝ) ∧
      (setCrossfader p s).rhythmVolume = p ^ (1.5 : ℝ)) ∧
    ((setCrossfader 0 s).ambientVolume = 1 ∧ (setCrossfader 0 s).rhythmVolume = 0) ∧
    ((setCrossfader 1 s).ambientVolume = 0 ∧ (setCrossfader 1 s).rhythmVolume = 1) ∧
    ((setCrossfader (1/2) s).ambientVolume = (1/2 : ℝ) ^ (1.5 : ℝ) ∧
      (setCrossfader (1/2) s).rhythmVolume = (1/2 : ℝ) ^ (1.5 : ℝ)) := by
  have key : ∀ q : ℝ, 0 ≤ q → q ≤ 1 →
      (setCrossfader q s).ambientVolume = (1 - q) ^ (1.5 : ℝ) ∧
      (setCrossfader q s).rhythmVolume = q ^ (1.5 : ℝ) := by
    intro q hq0 hq1
    rw [setCrossfader, updateVolumesFromCrossfader]
    constructor
    · rw [(checkBufferSwitching_scalars _).1]
      simp [clamp01_of_mem q hq0 hq1]
    · rw [(checkBufferSwitching_scalars _).2.1]
      simp [clamp01_of_mem q hq0 hq1]
  obtain ⟨k0a, k0r⟩ := key 0 le_rfl zero_le_one
  obtain ⟨k1a, k1r⟩ := key 1 zero_le_one le_rfl
  obtain ⟨kha, khr⟩ := key (1/2) (by norm_num) (by norm_num)
  refine ⟨key p h0 h1, ⟨?_, ?_⟩, ⟨?_, ?_⟩, ?_, ?_⟩
  · rw [k0a]; norm_num
  · rw [k0r]; exact Real.zero_rpow (by norm_num)
  · rw [k1a]; norm_num
  · rw [k1r]; exact Real.one_rpow _
  · rw [kha]; norm_num
  · rw [khr]

/-- Witness for C5 at position `1/2` (and the two endpoints) on the
engine's initial state. -/
theorem crossfader_gain_curve_witness :
    (setCrossfader (1/2) (initEngineState : EngineState ℝ)).ambientVolume =
      (1 - 1/2 : ℝ) ^ (1.5 : ℝ) ∧
    (setCrossfader 0 (initEngineState : EngineState ℝ)).ambientVolume = 1 ∧
    (setCrossfader 1 (initEngineState : EngineState ℝ)).rhythmVolume = 1 := by
  obtain ⟨⟨ha, _⟩, ⟨h0a, _⟩, ⟨_, h1r⟩, _⟩ :=
    crossfader_gain_curve (initEngineState : EngineState ℝ) (1/2)
      (by norm_num) (by norm_num)
  exact ⟨ha, h0a, h1r⟩

/-- **C7** — `set_delay_amount` / `_update_delay_params` /
`_apply_effects`: amount `0` fully bypasses the delay stage (the block
reaches the reverb stage unprocessed) and zeroes the mix; amounts in
`(0, 0.3]` select the 200 ms / 0.3-feedback preset, `(0.3, 0.7]` the
400 ms / 0.5 preset and `(0.7, 1]` the 800 ms / 0.7 preset; in every
non-bypassed band the wet/dry mix equals the amount itself. -/
theorem delay_presets_and_bypass {K : Type} [LinearOrderedField K]
    [DecidableEq K] (a : K) (h0 : 0 ≤ a) (h1 : a ≤ 1) (s : EngineState K)
    (d r : List K → List K) (audio : List K) :
    (a = 0 → (setDelayAmount a s).delay.mix = 0 ∧
      applyEffects d r (setDelayAmount a s) audio =
        (if 0 < (setDelayAmount a s).reverbAmount then r audio else audio)) ∧
    (0 < a → a ≤ 0.3 → (setDelayAmount a s).delay =
      { delaySeconds := 0.2, feedback := 0.3, mix := a }) ∧
    (0.3 < a → a ≤ 0.7 → (setDelayAmount a s).delay =
      { delaySeconds := 0.4, feedback := 0.5, mix := a }) ∧
    (0.7 < a → (setDelayAmount a s).delay =
      { delaySeconds := 0.8, feedback := 0.7, mix := a }) ∧
    (0 < a → (setDelayAmount a s).delay.mix = a) := by
  have hc : clamp01 a = a := clamp01_of_mem a h0 h1
  have hdelay : (setDelayAmount a s).delay = updateDelayParams a s.delay := by
    rw [setDelayAmount]; simp [hc]
  have hamt : (setDelayAmount a s).delayAmount = a := by
    rw [setDelayAmount]; simp [hc]
  have hrev : (setDelayAmount a s).reverbAmount = s.reverbAmount := by
    rw [setDelayAmount]
  refine ⟨?_, ?_, ?_, ?_, ?_⟩
  · intro hz
    constructor
    · rw [hdelay, hz, updateDelayParams, if_pos rfl]
    · have han : ¬(0 < (setDelayAmount a s).delayAmount) := by
        rw [hamt, hz]; exact lt_irrefl 0
      rw [applyEffects]
      simp only [if_neg han]
  · intro hpos hband
    rw [hdelay, updateDelayParams, if_neg (ne_of_gt hpos), if_pos hband]
  · intro hlo hhi
    rw [hdelay, updateDelayParams, if_neg (by positivity), if_neg (not_le.mpr hlo),
      if_pos hhi]
  · intro hlo
    rw [hdelay, updateDelayParams, if_neg (by positivity),
      if_neg (not_le.mpr (lt_trans (by norm_num) hlo)),
      if_neg (not_le.mpr hlo)]
  · intro hpos
    rw [hdelay, updateDelayParams, if_neg (ne_of_gt hpos)]


/-- Witness for C7 at `a = 1/2` (middle band) over `ℚ`. -/
theorem delay_presets_and_bypass_witness :
    (setDelayAmount (1/2 : ℚ) initEngineState).delay =
      { delaySeconds := 0.4, feedback := 0.5, mix := 1/2 } ∧
    (setDelayAmount (1/2 : ℚ) initEngineState).delay.mix = 1/2 := by
  obtain ⟨_, _, hmid, _, hmix⟩ :=
    delay_presets_and_bypass (1/2 : ℚ) (by norm_num) (by norm_num)
      initEngineState id id []
  exact ⟨hmid (by norm_num) (by norm_num), hmix (by norm_num)⟩

section CallbackLemmas

variable {K : Type} [LinearOrderedField K] [DecidableEq K]

@[simp] lemma mixTrack_none (p : ℕ) (v : K) (frames : ℕ) (output : List K) :
    mixTrack (none : Option (List K)) p v frames output = some (output, p) := rfl

/-- A zero gain and a pending buffer make the buffer-switch check
install the pending buffer and clear the pending slot. -/
lemma checkBufferSwitching_promotes_ambient (s : EngineState K) (b : List K)
    (h0 : s.ambientVolume = 0) (hb : s.nextAmbientBuffer = some b) :
    (checkBufferSwitching s).currentAmbientBuffer = some b ∧
    (checkBufferSwitching s).nextAmbientBuffer = none := by
  rw [checkBufferSwitching]
  simp only [if_pos (And.intro h0 (Option.isSome_iff_exists.mpr ⟨b, hb⟩))]
  rw [switchToNextAmbient_of_some s b hb]
  split_ifs with h2
  · rw [switchToNextRhythm_currentAmbientBuffer, switchToNextRhythm_nextAmbientBuffer]
    exact ⟨rfl, rfl⟩
  · exact ⟨rfl, rfl⟩

end CallbackLemmas

/-- Pushing the crossfader fully to the rhythm side drives the ambient
gain to `(1 - 1) ** 1.5 = 0`, and the buffer-switch check running
inside `set_crossfader` then promotes a pending ambient buffer. -/
lemma setCrossfader_one_promotes (s : EngineState ℝ) (b : List ℝ)
    (hnb : s.nextAmbientBuffer = some b) :
    (setCrossfader 1 s).nextAmbientBuffer = none ∧
    (setCrossfader 1 s).currentAmbientBuffer = some b := by
  have key : ∀ u : EngineState ℝ, u.ambientVolume = 0 → u.nextAmbientBuffer = some b →
      (checkBufferSwitching u).nextAmbientBuffer = none ∧
      (checkBufferSwitching u).currentAmbientBuffer = some b :=
    fun u h0 hb => ⟨checkBufferSwitching_nextAmbient_of_zero u h0,
      (checkBufferSwitching_promotes_ambient u b h0 hb).1⟩
  rw [setCrossfader, updateVolumesFromCrossfader]
  apply key
  · show (1 - clamp01 (1 : ℝ)) ^ (1.5 : ℝ) = 0
    rw [clamp01_of_mem 1 zero_le_one le_rfl]
    norm_num
  · exact hnb

/-- **C4 amended** — `audio_callback` performs no buffer promotion: it
only reads chunks, scales by the current gains, mixes and clips, and
the pending (and current) buffers of both slots are exactly what they
were before the block.  Promotion happens in the control path instead:
`set_crossfader → _update_volumes_from_crossfader →
_check_buffer_switching`; e.g. moving the crossfader to `1` promotes a
pending ambient buffer. -/
theorem promotion_in_control_path_not_callback
    (d r : List ℝ → List ℝ) (frames : ℕ) (s s' : EngineState ℝ)
    (out b : List ℝ)
    (hcb : audioCallback d r frames s = some (out, s'))
    (hnb : s.nextAmbientBuffer = some b) :
    (s'.nextAmbientBuffer = some b ∧
      s'.currentAmbientBuffer = s.currentAmbientBuffer ∧
      s'.nextRhythmBuffer = s.nextRhythmBuffer ∧
      s'.currentRhythmBuffer = s.currentRhythmBuffer) ∧
    (setCrossfader 1 s).nextAmbientBuffer = none ∧
    (setCrossfader 1 s).currentAmbientBuffer = some b := by
  refine ⟨?_, setCrossfader_one_promotes s b hnb⟩
  rw [audioCallback] at hcb
  rcases hm1 : mixTrack s.currentAmbientBuffer s.currentAmbientPos
      s.ambientVolume frames (List.replicate frames 0) with _ | ⟨o1, ap⟩
  · rw [hm1] at hcb; exact absurd hcb (by simp)
  · rw [hm1] at hcb
    dsimp only at hcb
    rcases hm2 : mixTrack s.currentRhythmBuffer s.currentRhythmPos
        s.rhythmVolume frames o1 with _ | ⟨o2, rp⟩
    · rw [hm2] at hcb; exact absurd hcb (by simp)
    · rw [hm2] at hcb
      dsimp only at hcb
      simp only [Option.some.injEq, Prod.mk.injEq] at hcb
      have hs' : s' = { s with currentAmbientPos := ap, currentRhythmPos := rp } :=
        hcb.2.symm
      rw [hs']
      exact ⟨hnb, rfl, rfl, rfl⟩

section CallbackTotal

variable {K : Type} [LinearOrderedField K] [DecidableEq K]

/-- A track mix step never fails and keeps the block length, provided
any present buffer holds the cursor and is at least one block long. -/
lemma npAccumAdd_of_length_eq (output chunk : List K)
    (h : chunk.length = output.length) :
    npAccumAdd output chunk =
      some (List.zipWith (fun o c => o + c) output chunk) := by
  rw [npAccumAdd, if_pos h]

lemma mixTrack_total (buf? : Option (List K)) (p : ℕ) (v : K) (frames : ℕ)
    (output : List K) (hout : output.length = frames)
    (hwf : ∀ buf, buf? = some buf → p < buf.length ∧ frames ≤ buf.length) :
    ∃ out p', mixTrack buf? p v frames output = some (out, p') ∧
      out.length = frames := by
  rcases buf? with _ | buf
  · exact ⟨output, p, rfl, hout⟩
  · rw [mixTrack]
    split_ifs with hv
    · obtain ⟨hp, hf⟩ := hwf buf rfl
      have hchunk : ((getAudioChunk buf p frames).map (fun x => x * v)).length
          = frames := by
        rw [List.length_map, getAudioChunk_length_eq buf p frames hp hf]
      rw [npAccumAdd_of_length_eq _ _ (by rw [hchunk, hout])]
      refine ⟨_, _, rfl, ?_⟩
      rw [List.length_zipWith, hout, hchunk, Nat.min_self]
    · exact ⟨output, p, rfl, hout⟩

/-- Evaluation of the callback when the ambient slot has no buffer. -/
lemma audioCallback_eval_ambient_none (d r : List K → List K) (frames : ℕ)
    (s : EngineState K) (ha : s.currentAmbientBuffer = none)
    (o2 : List K) (p2 : ℕ)
    (hm2 : mixTrack s.currentRhythmBuffer s.currentRhythmPos s.rhythmVolume
      frames (List.replicate frames 0) = some (o2, p2)) :
    audioCallback d r frames s =
      some (npClip (if 0 < s.delayAmount ∨ 0 < s.reverbAmount then
          applyEffects d r s o2 else o2),
        { s with currentAmbientPos := s.currentAmbientPos,
                 currentRhythmPos := p2 }) := by
  rw [audioCallback, ha]
  simp only [mixTrack_none]
  rw [hm2]

end CallbackTotal

/-- **C8** — A slot whose current buffer is absent contributes exactly
silence to the mix (the callback behaves identically to one with that
slot muted), and the callback completes without error — audio
continues even with no valid buffer loaded.  The other slot only needs
the standing invariant that a loaded buffer is at least one block long
(cf. C10); with both slots empty and effects off the block is exactly
zeros and the state unchanged. -/
theorem absent_buffer_contributes_silence {K : Type} [LinearOrderedField K]
    [DecidableEq K] (d r : List K → List K) (frames : ℕ) (s : EngineState K)
    (ha : s.currentAmbientBuffer = none)
    (hr : ∀ buf, s.currentRhythmBuffer = some buf →
      s.currentRhythmPos < buf.length ∧ frames ≤ buf.length) :
    (∃ out s', audioCallback d r frames s = some (out, s')) ∧
    Option.map Prod.fst (audioCallback d r frames s) =
      Option.map Prod.fst (audioCallback d r frames { s with ambientVolume := 0 }) ∧
    (s.currentRhythmBuffer = none → s.delayAmount = 0 → s.reverbAmount = 0 →
      audioCallback d r frames s = some (List.replicate frames 0, s)) := by
  obtain ⟨o2, p2, hm2, hlen2⟩ := mixTrack_total s.currentRhythmBuffer
    s.currentRhythmPos s.rhythmVolume frames (List.replicate frames (0 : K))
    (List.length_replicate frames 0) hr
  have hcb := audioCallback_eval_ambient_none d r frames s ha o2 p2 hm2
  have hcb0 := audioCallback_eval_ambient_none d r frames
    { s with ambientVolume := 0 } ha o2 p2 hm2
  refine ⟨⟨_, _, hcb⟩, ?_, ?_⟩
  · rw [hcb, hcb0]
    rfl
  · intro hrn hd0 hr0
    have hm2' : mixTrack s.currentRhythmBuffer s.currentRhythmPos s.rhythmVolume
        frames (List.replicate frames (0 : K)) =
        some (List.replicate frames 0, s.currentRhythmPos) := by
      rw [hrn]; rfl
    rw [audioCallback_eval_ambient_none d r frames s ha _ _ hm2']
    have hcond : ¬(0 < s.delayAmount ∨ 0 < s.reverbAmount) := by
      rw [hd0, hr0]; simp
    rw [if_neg hcond]
    have hclip : npClip (List.replicate frames (0 : K)) = List.replicate frames 0 := by
      rw [npClip, List.map_replicate, min_eq_right zero_le_one,
        max_eq_right (neg_nonpos.mpr zero_le_one)]
    rw [hclip]

/-- Witness for C8: on the freshly initialised engine (no buffers
loaded, effects off) a 2-frame block renders as exact silence and the
state is unchanged. -/
theorem absent_buffer_contributes_silence_witness :
    audioCallback id id 2 (initEngineState : EngineState ℚ) =
      some (List.replicate 2 0, initEngineState) := by
  obtain ⟨_, _, h3⟩ := absent_buffer_contributes_silence id id 2
    (initEngineState : EngineState ℚ) rfl (fun buf h => nomatch h)
  exact h3 rfl rfl rfl

/-- **C4 counterexample** — A state with ambient gain `0`, a current
ambient buffer `[1, 2]` and a pending next buffer `[5, 6]`: the claim
says the callback first runs `promote_if_silent` for the slot (which
at gain `0` with a pending buffer would install `[5, 6]` and clear the
pending slot), but after a full `audio_callback` block the pending
buffer is still pending and the current buffer unchanged — the
callback performs no promotion. -/
def callbackCounterexampleState : EngineState ℚ :=
  { initEngineState with
    ambientVolume := 0
    currentAmbientBuffer := some [1, 2]
    nextAmbientBuffer := some [5, 6] }

theorem callback_reads_without_promoting :
    callbackCounterexampleState.ambientVolume = 0 ∧
    callbackCounterexampleState.nextAmbientBuffer = some [5, 6] ∧
    audioCallback id id 2 callbackCounterexampleState =
      some (List.replicate 2 0, callbackCounterexampleState) := by
  refine ⟨rfl, rfl, ?_⟩
  have hclip0 : max (-1 : ℚ) (min 1 0) = 0 := by
    norm_num [min_def, max_def]
  simp [audioCallback, mixTrack, callbackCounterexampleState, initEngineState,
    npClip, hclip0]

/-- Witness for the amended C4: an initial engine with a pending
ambient buffer `[1]`. -/
noncomputable def pendingAmbientState : EngineState ℝ :=
  { initEngineState with nextAmbientBuffer := some [1] }

theorem promotion_in_control_path_not_callback_witness :
    (pendingAmbientState.nextAmbientBuffer = some [1] ∧
      pendingAmbientState.currentAmbientBuffer =
        pendingAmbientState.currentAmbientBuffer ∧
      pendingAmbientState.nextRhythmBuffer = pendingAmbientState.nextRhythmBuffer ∧
      pendingAmbientState.currentRhythmBuffer =
        pendingAmbientState.currentRhythmBuffer) ∧
    (setCrossfader 1 pendingAmbientState).nextAmbientBuffer = none ∧
    (setCrossfader 1 pendingAmbientState).currentAmbientBuffer = some [1] := by
  have hclipR : max (-1 : ℝ) (min 1 0) = 0 := by
    norm_num [min_def, max_def]
  have hcb : audioCallback id id 1 pendingAmbientState =
      some (List.replicate 1 0, pendingAmbientState) := by
    simp [audioCallback, mixTrack, pendingAmbientState, initEngineState,
      npClip, hclipR]
  exact promotion_in_control_path_not_callback id id 1 pendingAmbientState
    pendingAmbientState (List.replicate 1 0) [1] hcb rfl

section RenderFailure

variable {K : Type} [LinearOrderedField K] [DecidableEq K]

lemma buildLoop_one (data : List K) (C : ℕ) (fi fo : List K) :
    buildLoop data C fi fo 1 = some [data] := rfl

/-- With a crossfade longer than the source (`N < C`, `N ≥ 2`), the
second loop iteration multiplies the `N`-frame tail by the `C`-frame
fade-out ramp: numpy cannot broadcast the shapes and raises. -/
lemma buildLoop_two_none (data : List K) (C : ℕ)
    (h2 : 2 ≤ data.length) (hC : data.length < C) :
    buildLoop data C (linspace 0 1 C) (linspace 1 0 C) 2 = none := by
  have hmul : npMul (data.drop (data.length - C)) (linspace (1 : K) 0 C) = none := by
    rw [Nat.sub_eq_zero_of_le (le_of_lt hC), List.drop_zero,
      npMul, if_neg (by rw [linspace_length]; omega), if_neg (by omega),
      if_neg (by rw [linspace_length]; omega)]
  rw [show (2 : ℕ) = 1 + 1 from rfl, buildLoop, buildLoop_one]
  dsimp only
  rw [if_neg one_ne_zero, if_pos (show 0 < C by omega)]
  rw [hmul]

lemma buildLoop_none_of_two_le (data : List K) (C : ℕ)
    (h2 : 2 ≤ data.length) (hC : data.length < C) :
    ∀ n, 2 ≤ n →
      buildLoop data C (linspace 0 1 C) (linspace 1 0 C) n = none := by
  intro n
  induction n with
  | zero => intro h; omega
  | succ m ih =>
    intro hn
    rcases Nat.lt_or_ge m 2 with hm | hm
    · have hm1 : m = 1 := by omega
      subst hm1
      exact buildLoop_two_none data C h2 hC
    · rw [buildLoop, ih hm]

end RenderFailure

/-- **C2 amended** — The renderer never clamps an oversized crossfade
and never reports an adjustment: `_pre_render_buffer` uses
`crossfade_samples` exactly as computed, and for every source of
`N ≥ 2` frames, requested crossfade `C > N` samples and target longer
than one loop, the render fails with a numpy shape error (surfaced by
`_load_audio_to_buffer` as a failed load) instead of rendering with
`floor(N/2)`. -/
theorem oversized_crossfade_not_clamped {K : Type} [LinearOrderedField K]
    [DecidableEq K] (data : List K) (C t : ℕ)
    (h2 : 2 ≤ data.length) (hC : data.length < C) (ht : data.length < t) :
    preRenderBuffer data C t = none := by
  have hpos : 0 < data.length := by omega
  have hloops : 2 ≤ loopsNeeded t data.length := by
    rw [loopsNeeded_eq t data.length hpos, Nat.le_div_iff_mul_le hpos]
    omega
  rw [preRenderBuffer, if_neg (by omega)]
  simp only [if_pos (show 0 < C by omega)]
  rw [buildLoop_none_of_two_le data C h2 hC _ hloops]

/-- **C2 counterexample** — Concretely: a 4-frame source with a
requested 6-sample crossfade (`C ≥ N`) and a 12-frame target.  The
claim promises a successful render using crossfade
`floor(4/2) = 2` plus a reported adjustment; the code's render fails
outright (`none`) — while the same render with crossfade `2` (what the
claimed clamp would use) succeeds. -/
theorem oversized_crossfade_render_fails :
    preRenderBuffer ([1, 2, 3, 4] : List ℚ) 6 12 = none ∧
    (preRenderBuffer ([1, 2, 3, 4] : List ℚ) 2 12).isSome := by
  constructor
  · have hl : loopsNeeded 12 4 = 3 := by
      rw [loopsNeeded_eq 12 4 (by decide)]
    rw [preRenderBuffer, if_neg (by decide)]
    simp only [if_pos (show (0 : ℕ) < 6 by decide)]
    rw [show ([1, 2, 3, 4] : List ℚ).length = 4 from rfl, hl,
      buildLoop_none_of_two_le ([1, 2, 3, 4] : List ℚ) 6 (by decide) (by decide)
        3 (by decide)]
  · have hl : loopsNeeded 12 4 = 3 := by
      rw [loopsNeeded_eq 12 4 (by decide)]
    have hl8 : loopsNeeded 12 8 = 2 := by
      rw [loopsNeeded_eq 12 8 (by decide)]
    have hfi : linspace (0 : ℚ) 1 2 = [0, 1] := by
      simp [linspace, List.range_succ]
    have hfo : linspace (1 : ℚ) 0 2 = [1, 0] := by
      simp [linspace, List.range_succ]
    have hbuild : buildLoop ([1, 2, 3, 4] : List ℚ) 2 [0, 1] [1, 0] 3 =
        some [[3, 4], [3, 2], [1, 2, 3, 2]] := by
      simp [buildLoop, npMul, npAdd, List.zipWith]
    rw [preRenderBuffer, if_neg (by decide)]
    simp only [if_pos (show (0 : ℕ) < 2 by decide)]
    rw [show ([1, 2, 3, 4] : List ℚ).length = 4 from rfl, hl, hfi, hfo, hbuild]
    simp [hl8]

/-- Witness for the amended C2 at a 5-frame source, crossfade 7,
target 20. -/
theorem oversized_crossfade_not_clamped_witness :
    2 ≤ ([1, 2, 3, 4, 5] : List ℚ).length ∧
    ([1, 2, 3, 4, 5] : List ℚ).length < 7 ∧
    ([1, 2, 3, 4, 5] : List ℚ).length < 20 ∧
    preRenderBuffer ([1, 2, 3, 4, 5] : List ℚ) 7 20 = none :=
  ⟨by decide, by decide, by decide,
    oversized_crossfade_not_clamped [1, 2, 3, 4, 5] 7 20
      (by decide) (by decide) (by decide)⟩
